import Mathlib

/-
  Verification of the localized command-dispatch layer of the rattles GUI
  fragment (src/src/gui.rs): locale resolution, text-catalog lookup with
  fallback, the menu/shortcut dispatcher and its panel state, and the
  fire-and-forget command channel.  Rust functions are shallowly embedded
  as pure Lean functions; the per-tick egui interaction (consumed
  shortcuts, button clicks, window-chrome closes) is supplied as explicit
  per-frame input data.
-/

set_option maxHeartbeats 1000000

namespace Rattles

/-- The outbound command vocabulary (`RuffleEvent`).  The `custom_event`
module is not part of this fragment; the variants are the ones used by
gui.rs and listed by the spec. -/
inductive RuffleEvent where
  | OpenFile
  | CloseFile
  | ExitRequested
  | OpenURL (url : String)
  | ContextMenuItemClicked (index : Nat)
deriving DecidableEq

/-- The outbound end of the command channel (`EventLoopProxy`).  `sent`
records every event passed to `send_event` (the per-sender FIFO enqueue
order); `closed` models a receiving end that has already shut down, in
which case delivery fails and `send_event` reports failure in its
returned flag. -/
structure EventLoopProxy where
  closed : Bool
  sent : List RuffleEvent
deriving DecidableEq

/-- winit's `EventLoopProxy::send_event`: non-blocking enqueue returning a
delivery result, which every caller in gui.rs discards with `let _ = ...`. -/
def EventLoopProxy.send_event (p : EventLoopProxy) (e : RuffleEvent) :
    EventLoopProxy × Bool :=
  ({ p with sent := p.sent ++ [e] }, !p.closed)

/-- Observable log of `tracing::error!` events emitted so far. -/
structure LogState where
  errors : List String
deriving DecidableEq

/-- One `tracing::error!` emission. -/
def logError (log : LogState) (msg : String) : LogState :=
  { log with errors := log.errors ++ [msg] }

/-- A parsed BCP-47 language identifier (`unic_langid::LanguageIdentifier`),
kept opaque as its tag string. -/
abbrev LanguageIdentifier := String

/-- `static US_ENGLISH: LanguageIdentifier = langid!("en-US")` (gui.rs line 19). -/
def US_ENGLISH : LanguageIdentifier := "en-US"

/-- The static fluent text catalog built by `static_loader!`: entries keyed by
(locale, message key), plus the single configured fallback language
("en-US" in gui.rs). -/
structure TextCatalog where
  entries : List ((LanguageIdentifier × String) × String)
  fallback_language : LanguageIdentifier

/-- Raw per-locale lookup in the catalog's entry list. -/
def lookupEntry (entries : List ((LanguageIdentifier × String) × String))
    (locale : LanguageIdentifier) (key : String) : Option String :=
  (entries.find? (fun e => e.1.1 == locale && e.1.2 == key)).map (fun e => e.2)

/-- Modelled from the spec: the fluent-templates loader lookup (the
`Loader::lookup` implementation is external library code).  It looks the
key up in the requested locale's message set and, if absent, falls back to
the catalog's single configured fallback locale; if still absent it
returns nothing. -/
def TextCatalog.lookup (c : TextCatalog) (locale : LanguageIdentifier)
    (key : String) : Option String :=
  match lookupEntry c.entries locale key with
  | some t => some t
  | none => lookupEntry c.entries c.fallback_language key

/-- Modelled from the spec: named-argument substitution of a fluent template
(external library code); each named argument is substituted into the
template wherever it is referenced. -/
def substituteArgs (template : String) (args : List (String × String)) : String :=
  args.foldl (fun t a => t.replace ("\x7b $" ++ a.1 ++ " \x7d") a.2) template

/-- Modelled from the spec: `Loader::lookup_with_args`, i.e. `lookup`
followed by named-argument substitution, with the same fallback policy. -/
def TextCatalog.lookup_with_args (c : TextCatalog) (locale : LanguageIdentifier)
    (key : String) (args : List (String × String)) : Option String :=
  (c.lookup locale key).map (fun t => substituteArgs t args)

/-- `text` (gui.rs lines 28-33): looks the id up via the catalog; when the
lookup comes back empty it logs one error and returns the raw id.  The
emitted log events are made explicit in the result. -/
def text (c : TextCatalog) (log : LogState) (locale : LanguageIdentifier)
    (id : String) : String × LogState :=
  match c.lookup locale id with
  | some s => (s, log)
  | none => (id, logError log ("Unknown desktop text id " ++ id))

/-- `text_with_args` (gui.rs lines 36-48): as `text`, with named-argument
substitution. -/
def text_with_args (c : TextCatalog) (log : LogState)
    (locale : LanguageIdentifier) (id : String)
    (args : List (String × String)) : String × LogState :=
  match c.lookup_with_args locale id args with
  | some s => (s, log)
  | none => (id, logError log ("Unknown desktop text id " ++ id))

/-- The state of the main GUI controller (`struct RuffleGui`, gui.rs
lines 56-63); the commented-out `context_menu` field is omitted as in the
source. -/
structure RuffleGui where
  event_loop : EventLoopProxy
  open_url_text : String
  is_about_visible : Bool
  is_open_url_prompt_visible : Bool
  locale : LanguageIdentifier
deriving DecidableEq

/-- The slice of egui `Ui` state the dispatcher touches: whether the
containing popover menu is open. -/
structure Ui where
  menu_open : Bool
deriving DecidableEq

/-- egui's `Ui::close_menu`. -/
def Ui.close_menu (ui : Ui) : Ui := { ui with menu_open := false }

/-- `RuffleGui::new` (gui.rs lines 66-83).  `get_locale()` (sys-locale) and
`str::parse::<LanguageIdentifier>` (unic-langid) are external collaborators
supplied as the host hint and the parse function. -/
def RuffleGui.new (event_loop : EventLoopProxy)
    (preferred_locale : Option String)
    (parseLangId : String → Option LanguageIdentifier) : RuffleGui :=
  let locale := (preferred_locale.bind fun l => parseLangId l).getD US_ENGLISH
  { event_loop
    open_url_text := ""
    is_about_visible := false
    is_open_url_prompt_visible := false
    locale }

/-- `RuffleGui::open_file` (gui.rs lines 296-299): send `OpenFile`
(result discarded) and close the menu. -/
def RuffleGui.open_file (g : RuffleGui) (ui : Ui) : RuffleGui × Ui :=
  let r := g.event_loop.send_event RuffleEvent.OpenFile
  ({ g with event_loop := r.1 }, ui.close_menu)

/-- `RuffleGui::close_movie` (gui.rs lines 301-304): send `CloseFile`
(result discarded) and close the menu. -/
def RuffleGui.close_movie (g : RuffleGui) (ui : Ui) : RuffleGui × Ui :=
  let r := g.event_loop.send_event RuffleEvent.CloseFile
  ({ g with event_loop := r.1 }, ui.close_menu)

/-- `RuffleGui::request_exit` (gui.rs lines 343-346): send `ExitRequested`
(result discarded) and close the menu. -/
def RuffleGui.request_exit (g : RuffleGui) (ui : Ui) : RuffleGui × Ui :=
  let r := g.event_loop.send_event RuffleEvent.ExitRequested
  ({ g with event_loop := r.1 }, ui.close_menu)

/-- `RuffleGui::launch_website` (gui.rs lines 348-351): `webbrowser::open`
is an external best-effort collaborator whose result is discarded; the menu
is closed regardless. -/
def RuffleGui.launch_website (g : RuffleGui) (ui : Ui) (url : String)
    (browserOpen : String → Bool) : RuffleGui × Ui :=
  let _ := browserOpen url
  (g, ui.close_menu)

/-- `RuffleGui::show_about_screen` (gui.rs lines 353-356). -/
def RuffleGui.show_about_screen (g : RuffleGui) (ui : Ui) : RuffleGui × Ui :=
  ({ g with is_about_visible := true }, ui.close_menu)

/-- `RuffleGui::show_open_url_prompt` (gui.rs lines 358-361); its sole call
site (gui.rs lines 135-137) is commented out in this build. -/
def RuffleGui.show_open_url_prompt (g : RuffleGui) (ui : Ui) : RuffleGui × Ui :=
  ({ g with is_open_url_prompt_visible := true }, ui.close_menu)

/-- The per-tick egui interaction consumed by `main_menu_bar` and
`about_window`: which keyboard chords were newly consumed this tick, which
menu buttons reported a click, and whether the about window's chrome close
button was clicked. -/
structure FrameInput where
  openFileShortcut : Bool
  quitShortcut : Bool
  openFileClicked : Bool
  closeClicked : Bool
  exitClicked : Bool
  discordClicked : Bool
  reportBugClicked : Bool
  sponsorClicked : Bool
  translateClicked : Bool
  aboutClicked : Bool
  aboutWindowClosed : Bool
deriving DecidableEq

/-- One `if condition { handler }` step of the menu bar, threading the
(controller, ui) pair. -/
def condStep (c : Bool) (f : RuffleGui → Ui → RuffleGui × Ui)
    (p : RuffleGui × Ui) : RuffleGui × Ui :=
  if c then f p.1 p.2 else p

/-- `RuffleGui::main_menu_bar` (gui.rs lines 108-174), as the sequence of
its conditional handler invocations: the two `consume_shortcut` checks,
then the File-menu buttons (Close enabled only when `has_movie`, per
`ui.add_enabled`; a disabled egui button never reports a click), then the
Help-menu buttons.  The commented-out Open URL entry (lines 135-137) is
absent, as in the source. -/
def RuffleGui.main_menu_bar (g : RuffleGui) (ui : Ui) (inp : FrameInput)
    (browserOpen : String → Bool) (has_movie : Bool) : RuffleGui × Ui :=
  let p := (g, ui)
  let p := condStep inp.openFileShortcut RuffleGui.open_file p
  let p := condStep inp.quitShortcut RuffleGui.request_exit p
  let p := condStep inp.openFileClicked RuffleGui.open_file p
  let p := condStep (has_movie && inp.closeClicked) RuffleGui.close_movie p
  let p := condStep inp.exitClicked RuffleGui.request_exit p
  let p := condStep inp.discordClicked
    (fun g ui => g.launch_website ui "https://discord.gg/ruffle" browserOpen) p
  let p := condStep inp.reportBugClicked
    (fun g ui => g.launch_website ui "https://github.com/ruffle-rs/ruffle/issues/new?assignees=&labels=bug&projects=&template=bug_report.yml" browserOpen) p
  let p := condStep inp.sponsorClicked
    (fun g ui => g.launch_website ui "https://opencollective.com/ruffle/" browserOpen) p
  let p := condStep inp.translateClicked
    (fun g ui => g.launch_website ui "https://crowdin.com/project/ruffle" browserOpen) p
  let p := condStep inp.aboutClicked RuffleGui.show_about_screen p
  p

/-- `RuffleGui::about_window` (gui.rs lines 176-256): the window is driven
by `.open(&mut self.is_about_visible)`, so it is shown only while the flag
is set and a click on its chrome close button clears the flag; the body
only renders read-only build metadata. -/
def RuffleGui.about_window (g : RuffleGui) (inp : FrameInput) : RuffleGui :=
  if g.is_about_visible && inp.aboutWindowClosed then
    { g with is_about_visible := false }
  else g

/-- `RuffleGui::open_url_prompt` (gui.rs lines 306-341): the entire body is
commented out in this build, so the call is a no-op. -/
def RuffleGui.open_url_prompt (g : RuffleGui) : RuffleGui := g

/-- `RuffleGui::update` (gui.rs lines 86-97): render the main menu bar only
when `show_menu` is set, then the about window, then the (disabled) URL
prompt. -/
def RuffleGui.update (g : RuffleGui) (inp : FrameInput)
    (browserOpen : String → Bool) (show_menu has_movie : Bool) : RuffleGui :=
  let g1 := if show_menu
    then (g.main_menu_bar (Ui.mk true) inp browserOpen has_movie).1
    else g
  let g2 := g1.about_window inp
  g2.open_url_prompt

/-- Append events to the controller's channel record: the state shape every
send-handler produces. -/
def addSent (g : RuffleGui) (l : List RuffleEvent) : RuffleGui :=
  { g with event_loop := { g.event_loop with sent := g.event_loop.sent ++ l } }

/-- Conditionally set the about flag: the state shape the About click
produces. -/
def setAboutIf (g : RuffleGui) (c : Bool) : RuffleGui :=
  if c then { g with is_about_visible := true } else g

/-- The commands a single menu-bar pass enqueues, as a function of the
frame's input and the `has_movie` gate. -/
def menuBarSends (inp : FrameInput) (hm : Bool) : List RuffleEvent :=
  (if inp.openFileShortcut then [RuffleEvent.OpenFile] else []) ++
  (if inp.quitShortcut then [RuffleEvent.ExitRequested] else []) ++
  (if inp.openFileClicked then [RuffleEvent.OpenFile] else []) ++
  (if hm && inp.closeClicked then [RuffleEvent.CloseFile] else []) ++
  (if inp.exitClicked then [RuffleEvent.ExitRequested] else [])

@[simp] lemma addSent_nil (g : RuffleGui) : addSent g [] = g := by
  simp [addSent]

@[simp] lemma addSent_addSent (g : RuffleGui) (l1 l2 : List RuffleEvent) :
    addSent (addSent g l1) l2 = addSent g (l1 ++ l2) := by
  simp [addSent]

@[simp] lemma addSent_locale (g : RuffleGui) (l : List RuffleEvent) :
    (addSent g l).locale = g.locale := rfl

@[simp] lemma addSent_sent (g : RuffleGui) (l : List RuffleEvent) :
    (addSent g l).event_loop.sent = g.event_loop.sent ++ l := rfl

@[simp] lemma addSent_closed (g : RuffleGui) (l : List RuffleEvent) :
    (addSent g l).event_loop.closed = g.event_loop.closed := rfl

@[simp] lemma addSent_about (g : RuffleGui) (l : List RuffleEvent) :
    (addSent g l).is_about_visible = g.is_about_visible := rfl

@[simp] lemma addSent_prompt (g : RuffleGui) (l : List RuffleEvent) :
    (addSent g l).is_open_url_prompt_visible = g.is_open_url_prompt_visible := rfl

@[simp] lemma addSent_text (g : RuffleGui) (l : List RuffleEvent) :
    (addSent g l).open_url_text = g.open_url_text := rfl

@[simp] lemma setAboutIf_locale (g : RuffleGui) (c : Bool) :
    (setAboutIf g c).locale = g.locale := by
  cases c <;> rfl

@[simp] lemma setAboutIf_event_loop (g : RuffleGui) (c : Bool) :
    (setAboutIf g c).event_loop = g.event_loop := by
  cases c <;> rfl

@[simp] lemma setAboutIf_prompt (g : RuffleGui) (c : Bool) :
    (setAboutIf g c).is_open_url_prompt_visible = g.is_open_url_prompt_visible := by
  cases c <;> rfl

@[simp] lemma setAboutIf_text (g : RuffleGui) (c : Bool) :
    (setAboutIf g c).open_url_text = g.open_url_text := by
  cases c <;> rfl

@[simp] lemma setAboutIf_about (g : RuffleGui) (c : Bool) :
    (setAboutIf g c).is_about_visible = (g.is_about_visible || c) := by
  cases c <;> simp [setAboutIf]

lemma condStep_open_file_fst (c : Bool) (p : RuffleGui × Ui) :
    (condStep c RuffleGui.open_file p).1
      = addSent p.1 (if c then [RuffleEvent.OpenFile] else []) := by
  cases c <;>
    simp [condStep, RuffleGui.open_file, EventLoopProxy.send_event, addSent]

lemma condStep_request_exit_fst (c : Bool) (p : RuffleGui × Ui) :
    (condStep c RuffleGui.request_exit p).1
      = addSent p.1 (if c then [RuffleEvent.ExitRequested] else []) := by
  cases c <;>
    simp [condStep, RuffleGui.request_exit, EventLoopProxy.send_event, addSent]

lemma condStep_close_movie_fst (c : Bool) (p : RuffleGui × Ui) :
    (condStep c RuffleGui.close_movie p).1
      = addSent p.1 (if c then [RuffleEvent.CloseFile] else []) := by
  cases c <;>
    simp [condStep, RuffleGui.close_movie, EventLoopProxy.send_event, addSent]

lemma condStep_web_fst (c : Bool) (url : String) (bo : String → Bool)
    (p : RuffleGui × Ui) :
    (condStep c (fun g ui => g.launch_website ui url bo) p).1 = p.1 := by
  cases c <;> simp [condStep, RuffleGui.launch_website]

lemma condStep_show_about_fst (c : Bool) (p : RuffleGui × Ui) :
    (condStep c RuffleGui.show_about_screen p).1 = setAboutIf p.1 c := by
  cases c <;> simp [condStep, RuffleGui.show_about_screen, setAboutIf]

/-- Structural description of one menu-bar pass: it appends exactly
`menuBarSends` to the channel and sets the about flag when the About entry
was clicked; nothing else in the controller changes. -/
theorem main_menu_bar_fst (g : RuffleGui) (ui : Ui) (inp : FrameInput)
    (bo : String → Bool) (hm : Bool) :
    (g.main_menu_bar ui inp bo hm).1
      = setAboutIf (addSent g (menuBarSends inp hm)) inp.aboutClicked := by
  simp only [RuffleGui.main_menu_bar]
  rw [condStep_show_about_fst, condStep_web_fst, condStep_web_fst,
    condStep_web_fst, condStep_web_fst, condStep_request_exit_fst,
    condStep_close_movie_fst, condStep_open_file_fst,
    condStep_request_exit_fst, condStep_open_file_fst]
  simp [menuBarSends, List.append_assoc]

@[simp] lemma about_window_locale (g : RuffleGui) (inp : FrameInput) :
    (g.about_window inp).locale = g.locale := by
  unfold RuffleGui.about_window
  split <;> rfl

@[simp] lemma about_window_event_loop (g : RuffleGui) (inp : FrameInput) :
    (g.about_window inp).event_loop = g.event_loop := by
  unfold RuffleGui.about_window
  split <;> rfl

@[simp] lemma about_window_prompt (g : RuffleGui) (inp : FrameInput) :
    (g.about_window inp).is_open_url_prompt_visible
      = g.is_open_url_prompt_visible := by
  unfold RuffleGui.about_window
  split <;> rfl

@[simp] lemma about_window_text (g : RuffleGui) (inp : FrameInput) :
    (g.about_window inp).open_url_text = g.open_url_text := by
  unfold RuffleGui.about_window
  split <;> rfl

@[simp] lemma open_url_prompt_eq (g : RuffleGui) : g.open_url_prompt = g := rfl

lemma update_locale (g : RuffleGui) (inp : FrameInput) (bo : String → Bool)
    (sm hm : Bool) : (g.update inp bo sm hm).locale = g.locale := by
  cases sm <;> simp [RuffleGui.update, main_menu_bar_fst]

lemma update_prompt (g : RuffleGui) (inp : FrameInput) (bo : String → Bool)
    (sm hm : Bool) :
    (g.update inp bo sm hm).is_open_url_prompt_visible
      = g.is_open_url_prompt_visible := by
  cases sm <;> simp [RuffleGui.update, main_menu_bar_fst]

lemma update_text (g : RuffleGui) (inp : FrameInput) (bo : String → Bool)
    (sm hm : Bool) : (g.update inp bo sm hm).open_url_text = g.open_url_text := by
  cases sm <;> simp [RuffleGui.update, main_menu_bar_fst]

/-- The per-tick interaction of the URL-open prompt: consumed Enter/Escape
keys, OK/Cancel button clicks, the single-line text edit's resulting buffer
contents, and the window chrome close button. -/
structure PromptInput where
  enterPressed : Bool
  escPressed : Bool
  okClicked : Bool
  cancelClicked : Bool
  editedText : String
  chromeClosed : Bool
deriving DecidableEq

/-- The commented-out body of `RuffleGui::open_url_prompt` (gui.rs lines
307-340), modelled as it is written in the disabled source: the window is
driven by `.open(&mut self.is_open_url_prompt_visible)` so its contents run
only while the flag is set and chrome close clears it; the text edit
updates the buffer; OK or Enter parses the buffer (`url::Url::parse` is the
external parser), sending `OpenURL` on success and logging an error on
failure, and sets `close_prompt` in either case; Cancel or Escape sets
`close_prompt`; finally `close_prompt` clears the visibility flag. -/
def RuffleGui.open_url_prompt_disabled_body (g : RuffleGui) (log : LogState)
    (inp : PromptInput) (parseUrl : String → Option String) :
    RuffleGui × LogState :=
  if g.is_open_url_prompt_visible then
    let g1 := { g with open_url_text := inp.editedText }
    let okStep :=
      if inp.okClicked || inp.enterPressed then
        match parseUrl g1.open_url_text with
        | some url =>
          ({ g1 with
              event_loop :=
                (g1.event_loop.send_event (RuffleEvent.OpenURL url)).1 },
            log, true)
        | none =>
          (g1, logError log ("Invalid URL: " ++ g1.open_url_text), true)
      else (g1, log, false)
    let close_prompt := okStep.2.2 || (inp.cancelClicked || inp.escPressed)
    let g2 :=
      if inp.chromeClosed then
        { okStep.1 with is_open_url_prompt_visible := false }
      else okStep.1
    let g3 :=
      if close_prompt then { g2 with is_open_url_prompt_visible := false }
      else g2
    (g3, okStep.2.1)
  else (g, log)

/-- Replace the channel's closed flag: used to compare a handler's behavior
against an open and against a shut-down receiving end. -/
def setClosed (g : RuffleGui) (b : Bool) : RuffleGui :=
  { g with event_loop := { g.event_loop with closed := b } }

/-- The dispatcher-owned part of the controller state: everything except
the outbound channel. -/
def RuffleGui.guiFields (g : RuffleGui) :
    String × Bool × Bool × LanguageIdentifier :=
  (g.open_url_text, g.is_about_visible, g.is_open_url_prompt_visible, g.locale)

/-- The operations the controller exposes after construction: the per-tick
`update` together with every individual menu handler and panel operation. -/
inductive GuiOp where
  | update (inp : FrameInput) (show_menu has_movie : Bool)
  | open_file (ui : Ui)
  | close_movie (ui : Ui)
  | request_exit (ui : Ui)
  | launch_website (ui : Ui) (url : String)
  | show_about_screen (ui : Ui)
  | show_open_url_prompt (ui : Ui)
  | about_window (inp : FrameInput)
  | open_url_prompt

/-- Run one operation on the controller. -/
def applyOp (bo : String → Bool) (g : RuffleGui) : GuiOp → RuffleGui
  | .update inp sm hm => g.update inp bo sm hm
  | .open_file ui => (g.open_file ui).1
  | .close_movie ui => (g.close_movie ui).1
  | .request_exit ui => (g.request_exit ui).1
  | .launch_website ui url => (g.launch_website ui url bo).1
  | .show_about_screen ui => (g.show_about_screen ui).1
  | .show_open_url_prompt ui => (g.show_open_url_prompt ui).1
  | .about_window inp => g.about_window inp
  | .open_url_prompt => g.open_url_prompt

lemma applyOp_locale (bo : String → Bool) (g : RuffleGui) (op : GuiOp) :
    (applyOp bo g op).locale = g.locale := by
  cases op <;>
    simp [applyOp, update_locale, RuffleGui.open_file, RuffleGui.close_movie,
      RuffleGui.request_exit, RuffleGui.launch_website,
      RuffleGui.show_about_screen, RuffleGui.show_open_url_prompt]

/-- The controller states reachable in this build: a freshly constructed
controller, closed under per-tick `update` calls (the only operation the
surrounding controller invokes; the individual handlers run only from
inside `update`, and `show_open_url_prompt`'s lone call site is commented
out). -/
inductive Reachable : RuffleGui → Prop where
  | init (el : EventLoopProxy) (hint : Option String)
      (parse : String → Option LanguageIdentifier) :
      Reachable (RuffleGui.new el hint parse)
  | step (g : RuffleGui) (inp : FrameInput) (bo : String → Bool)
      (sm hm : Bool) : Reachable g → Reachable (g.update inp bo sm hm)

/-- A fresh channel with an open receiving end. -/
def elInit : EventLoopProxy := { closed := false, sent := [] }

/-- A language-identifier parser that rejects every hint. -/
def parseNone : String → Option LanguageIdentifier := fun _ => none

/-- A browser launcher that always fails. -/
def browserNone : String → Bool := fun _ => false

/-- A controller as constructed with no usable host locale hint. -/
def gui0 : RuffleGui := RuffleGui.new elInit none parseNone

/-- A fresh ui with its popover menu open. -/
def ui0 : Ui := { menu_open := true }

/-- A frame on which only the open-file keyboard chord was consumed. -/
def inpOpenFileChord : FrameInput :=
  { openFileShortcut := true, quitShortcut := false, openFileClicked := false
    closeClicked := false, exitClicked := false, discordClicked := false
    reportBugClicked := false, sponsorClicked := false
    translateClicked := false, aboutClicked := false
    aboutWindowClosed := false }

/-- A frame on which only the Close menu entry was clicked. -/
def inpCloseClick : FrameInput :=
  { openFileShortcut := false, quitShortcut := false, openFileClicked := false
    closeClicked := true, exitClicked := false, discordClicked := false
    reportBugClicked := false, sponsorClicked := false
    translateClicked := false, aboutClicked := false
    aboutWindowClosed := false }

/-- A frame on which only the about window's chrome close was clicked. -/
def inpAboutClose : FrameInput :=
  { openFileShortcut := false, quitShortcut := false, openFileClicked := false
    closeClicked := false, exitClicked := false, discordClicked := false
    reportBugClicked := false, sponsorClicked := false
    translateClicked := false, aboutClicked := false
    aboutWindowClosed := true }

/-- A controller with the URL prompt visible, as the dead code would reach
after `show_open_url_prompt`. -/
def guiPromptVisible : RuffleGui :=
  { gui0 with is_open_url_prompt_visible := true }

/-- A prompt frame on which OK was clicked with a non-URL buffer. -/
def inpPromptOk : PromptInput :=
  { enterPressed := false, escPressed := false, okClicked := true
    cancelClicked := false, editedText := "not a url", chromeClosed := false }

/-- An empty error log. -/
def log0 : LogState := { errors := [] }

/-- A small concrete catalog holding only the pair (en-US, hello). -/
def catalog0 : TextCatalog :=
  { entries := [(("en-US", "hello"), "Hello")], fallback_language := "en-US" }

/-- C1: for every locale and key, if the key is absent from both the
requested locale's message set and the fallback locale's message set, then
`text` (and likewise `text_with_args`) returns exactly the key string
itself and emits exactly one error log event; being total Lean functions,
they never raise a propagating error. -/
theorem text_missing_key_returns_key_and_logs_once (c : TextCatalog)
    (log : LogState) (locale : LanguageIdentifier) (key : String)
    (args : List (String × String))
    (h1 : lookupEntry c.entries locale key = none)
    (h2 : lookupEntry c.entries c.fallback_language key = none) :
    (text c log locale key).1 = key ∧
    (text c log locale key).2.errors
      = log.errors ++ ["Unknown desktop text id " ++ key] ∧
    (text_with_args c log locale key args).1 = key ∧
    (text_with_args c log locale key args).2.errors
      = log.errors ++ ["Unknown desktop text id " ++ key] := by
  simp [text, text_with_args, TextCatalog.lookup, TextCatalog.lookup_with_args,
    h1, h2, logError]

/-- Witness for C1 at the concrete catalog `catalog0`, locale fr-FR and the
absent key "missing". -/
theorem text_missing_key_returns_key_and_logs_once_witness :
    lookupEntry catalog0.entries "fr-FR" "missing" = none ∧
    lookupEntry catalog0.entries catalog0.fallback_language "missing" = none ∧
    ((text catalog0 log0 "fr-FR" "missing").1 = "missing" ∧
     (text catalog0 log0 "fr-FR" "missing").2.errors
       = log0.errors ++ ["Unknown desktop text id " ++ "missing"] ∧
     (text_with_args catalog0 log0 "fr-FR" "missing" []).1 = "missing" ∧
     (text_with_args catalog0 log0 "fr-FR" "missing" []).2.errors
       = log0.errors ++ ["Unknown desktop text id " ++ "missing"]) :=
  ⟨rfl, rfl,
    text_missing_key_returns_key_and_logs_once catalog0 log0 "fr-FR" "missing"
      [] rfl rfl⟩

/-- C2: at construction, an absent or unparseable host locale hint yields
the fixed default en-US, and a hint that parses yields exactly the parsed
identifier; `new` is a total function, so construction never fails. -/
theorem new_locale_resolution (el : EventLoopProxy) (hint : Option String)
    (parse : String → Option LanguageIdentifier) :
    (hint = none → (RuffleGui.new el hint parse).locale = US_ENGLISH) ∧
    (∀ l, hint = some l → parse l = none →
      (RuffleGui.new el hint parse).locale = US_ENGLISH) ∧
    (∀ l lid, hint = some l → parse l = some lid →
      (RuffleGui.new el hint parse).locale = lid) := by
  refine ⟨?_, ?_, ?_⟩
  · rintro rfl; rfl
  · rintro l rfl hp; simp [RuffleGui.new, hp]
  · rintro l lid rfl hp; simp [RuffleGui.new, hp]

/-- Witness for C2 at the unsupported hint "xx-ZZ" with a parser that
rejects it. -/
theorem new_locale_resolution_witness :
    parseNone "xx-ZZ" = none ∧
    (RuffleGui.new elInit (some "xx-ZZ") parseNone).locale = US_ENGLISH :=
  ⟨rfl,
    (new_locale_resolution elInit (some "xx-ZZ") parseNone).2.1 "xx-ZZ" rfl rfl⟩

/-- C4: each command-sending handler discards the delivery result — with
the receiving end open (`closed = b2 = false`) or shut down
(`closed = b1 = true`), the handler produces the same dispatcher state
(`guiFields`), attempts the same sends, and closes the menu the same way,
and being total it never raises; the handlers touch no log. -/
theorem send_result_discarded (g : RuffleGui) (ui : Ui) (b1 b2 : Bool) :
    (((setClosed g b1).open_file ui).1.guiFields
        = ((setClosed g b2).open_file ui).1.guiFields ∧
      ((setClosed g b1).open_file ui).1.event_loop.sent
        = ((setClosed g b2).open_file ui).1.event_loop.sent ∧
      ((setClosed g b1).open_file ui).2 = ((setClosed g b2).open_file ui).2) ∧
    (((setClosed g b1).close_movie ui).1.guiFields
        = ((setClosed g b2).close_movie ui).1.guiFields ∧
      ((setClosed g b1).close_movie ui).1.event_loop.sent
        = ((setClosed g b2).close_movie ui).1.event_loop.sent ∧
      ((setClosed g b1).close_movie ui).2
        = ((setClosed g b2).close_movie ui).2) ∧
    (((setClosed g b1).request_exit ui).1.guiFields
        = ((setClosed g b2).request_exit ui).1.guiFields ∧
      ((setClosed g b1).request_exit ui).1.event_loop.sent
        = ((setClosed g b2).request_exit ui).1.event_loop.sent ∧
      ((setClosed g b1).request_exit ui).2
        = ((setClosed g b2).request_exit ui).2) :=
  ⟨⟨rfl, rfl, rfl⟩, ⟨rfl, rfl, rfl⟩, ⟨rfl, rfl, rfl⟩⟩

/-- C7: the panel show/hide operations are idempotent — from any state,
showing the about screen twice leaves the same state as showing it once,
with the flag true; closing the about window twice leaves the same state
as closing it once, with the flag false. -/
theorem about_panel_idempotent (g : RuffleGui) (ui : Ui) (inp : FrameInput)
    (h : inp.aboutWindowClosed = true) :
    ((g.show_about_screen ui).1.show_about_screen
        (g.show_about_screen ui).2).1 = (g.show_about_screen ui).1 ∧
    (g.show_about_screen ui).1.is_about_visible = true ∧
    (g.about_window inp).about_window inp = g.about_window inp ∧
    (g.about_window inp).is_about_visible = false := by
  refine ⟨rfl, rfl, ?_, ?_⟩
  · unfold RuffleGui.about_window
    cases hA : g.is_about_visible <;> simp [h, hA]
  · unfold RuffleGui.about_window
    cases hA : g.is_about_visible <;> simp [h, hA]

/-- Witness for C7 at the fresh controller and a frame closing the about
window. -/
theorem about_panel_idempotent_witness :
    inpAboutClose.aboutWindowClosed = true ∧
    (((gui0.show_about_screen ui0).1.show_about_screen
        (gui0.show_about_screen ui0).2).1 = (gui0.show_about_screen ui0).1 ∧
     (gui0.show_about_screen ui0).1.is_about_visible = true ∧
     (gui0.about_window inpAboutClose).about_window inpAboutClose
       = gui0.about_window inpAboutClose ∧
     (gui0.about_window inpAboutClose).is_about_visible = false) :=
  ⟨rfl, about_panel_idempotent gui0 ui0 inpAboutClose rfl⟩

/-- C8: every menu-item click handler closes the containing popover menu on
every invocation, for every controller state (hence regardless of the
channel's delivery outcome) and every browser-launch outcome. -/
theorem handlers_close_menu (g : RuffleGui) (ui : Ui) (url : String)
    (bo : String → Bool) :
    (g.open_file ui).2.menu_open = false ∧
    (g.close_movie ui).2.menu_open = false ∧
    (g.request_exit ui).2.menu_open = false ∧
    (g.launch_website ui url bo).2.menu_open = false ∧
    (g.show_about_screen ui).2.menu_open = false :=
  ⟨rfl, rfl, rfl, rfl, rfl⟩

/-- C3 counterexample: on a tick with `show_menu = false` on which the
open-file chord was newly consumed, no `OpenFile` command is sent — the
shortcut scan lives inside `main_menu_bar`, which `update` skips entirely
when the menu is suppressed, contradicting the claim that the scan still
runs on that tick. -/
theorem shortcut_scan_skipped_counterexample :
    (gui0.update inpOpenFileChord browserNone false true).event_loop.sent = []
    ∧ ¬ ((gui0.update inpOpenFileChord browserNone false true).event_loop.sent
        = gui0.event_loop.sent ++ [RuffleEvent.OpenFile]) := by
  decide

/-- C3 (amended): on every update tick with `show_menu = false`, none of
the menu-click actions is reachable and the global keyboard-shortcut scan
does not run either: the channel is left untouched, so a newly consumed
open-file or quit chord sends nothing. -/
theorem menu_hidden_sends_nothing (g : RuffleGui) (inp : FrameInput)
    (bo : String → Bool) (hm : Bool) :
    (g.update inp bo false hm).event_loop = g.event_loop := by
  simp [RuffleGui.update]

/-- C5 counterexample: with the prompt visible and OK clicked on the buffer
"not a url" (which the URL parser rejects), the disabled prompt body logs
one error and sends nothing, but it also closes the prompt — `close_prompt`
is set on every OK/Enter press regardless of the parse outcome — refuting
the claim that the prompt remains visible on parse failure. -/
theorem url_prompt_parse_failure_closes_counterexample :
    ((guiPromptVisible.open_url_prompt_disabled_body log0 inpPromptOk
        parseNone).1.is_open_url_prompt_visible = false) ∧
    ((guiPromptVisible.open_url_prompt_disabled_body log0 inpPromptOk
        parseNone).2.errors.length = 1) ∧
    ((guiPromptVisible.open_url_prompt_disabled_body log0 inpPromptOk
        parseNone).1.event_loop.sent = []) := by
  decide

/-- C5 (amended): in the disabled URL-open prompt body, OK or Enter with a
buffer that parses as a URL sends exactly one `OpenURL(url)` command, logs
nothing, and closes the prompt; with a buffer that does not parse, no
command is sent, exactly one error is logged, and the prompt closes as
well; Cancel or Escape closes the prompt unconditionally with no command
sent and nothing logged. -/
theorem url_prompt_ok_cancel_behavior (g : RuffleGui) (log : LogState)
    (inp : PromptInput) (parseUrl : String → Option String)
    (hvis : g.is_open_url_prompt_visible = true) :
    (∀ u, (inp.okClicked || inp.enterPressed) = true →
      parseUrl inp.editedText = some u →
      (g.open_url_prompt_disabled_body log inp parseUrl).1.event_loop.sent
          = g.event_loop.sent ++ [RuffleEvent.OpenURL u] ∧
      (g.open_url_prompt_disabled_body log inp parseUrl).2 = log ∧
      (g.open_url_prompt_disabled_body log inp
          parseUrl).1.is_open_url_prompt_visible = false) ∧
    ((inp.okClicked || inp.enterPressed) = true →
      parseUrl inp.editedText = none →
      (g.open_url_prompt_disabled_body log inp parseUrl).1.event_loop.sent
          = g.event_loop.sent ∧
      (g.open_url_prompt_disabled_body log inp parseUrl).2.errors.length
          = log.errors.length + 1 ∧
      (g.open_url_prompt_disabled_body log inp
          parseUrl).1.is_open_url_prompt_visible = false) ∧
    ((inp.okClicked || inp.enterPressed) = false →
      (inp.cancelClicked || inp.escPressed) = true →
      (g.open_url_prompt_disabled_body log inp parseUrl).1.event_loop.sent
          = g.event_loop.sent ∧
      (g.open_url_prompt_disabled_body log inp parseUrl).2 = log ∧
      (g.open_url_prompt_disabled_body log inp
          parseUrl).1.is_open_url_prompt_visible = false) := by
  refine ⟨?_, ?_, ?_⟩
  · intro u hok hu
    cases hc : inp.chromeClosed <;>
      simp [RuffleGui.open_url_prompt_disabled_body, hvis, hok, hu, hc,
        EventLoopProxy.send_event]
  · intro hok hu
    cases hc : inp.chromeClosed <;>
      simp [RuffleGui.open_url_prompt_disabled_body, hvis, hok, hu, hc,
        logError]
  · intro hok hcan
    cases hc : inp.chromeClosed <;>
      simp [RuffleGui.open_url_prompt_disabled_body, hvis, hok, hcan, hc]

/-- Witness for C5 (amended) at the parse-failure branch with the concrete
buffer "not a url". -/
theorem url_prompt_ok_cancel_behavior_witness :
    guiPromptVisible.is_open_url_prompt_visible = true ∧
    ((guiPromptVisible.open_url_prompt_disabled_body log0 inpPromptOk
        parseNone).1.event_loop.sent = guiPromptVisible.event_loop.sent ∧
     (guiPromptVisible.open_url_prompt_disabled_body log0 inpPromptOk
        parseNone).2.errors.length = log0.errors.length + 1 ∧
     (guiPromptVisible.open_url_prompt_disabled_body log0 inpPromptOk
        parseNone).1.is_open_url_prompt_visible = false) :=
  ⟨rfl,
    (url_prompt_ok_cancel_behavior guiPromptVisible log0 inpPromptOk parseNone
      rfl).2.1 rfl rfl⟩

/-- C6: on a menu-shown tick, the Close menu action can enqueue `CloseFile`
only when `has_movie` is true — with `has_movie = false` the entry is
disabled and no click sends `CloseFile`, while with `has_movie = true` a
click does. -/
theorem close_gated_by_has_movie (g : RuffleGui) (ui : Ui) (inp : FrameInput)
    (bo : String → Bool) :
    RuffleEvent.CloseFile ∉
      ((g.main_menu_bar ui inp bo false).1.event_loop.sent.drop
        g.event_loop.sent.length) ∧
    (inp.closeClicked = true →
      RuffleEvent.CloseFile ∈
        ((g.main_menu_bar ui inp bo true).1.event_loop.sent.drop
          g.event_loop.sent.length)) := by
  constructor
  · rw [main_menu_bar_fst]
    simp only [setAboutIf_event_loop, addSent_sent, List.drop_left]
    simp only [menuBarSends, List.mem_append]
    split_ifs <;> simp_all
  · intro h
    rw [main_menu_bar_fst]
    simp only [setAboutIf_event_loop, addSent_sent, List.drop_left]
    simp [menuBarSends, h]

/-- Witness for C6 at the fresh controller with a Close click and
`has_movie = true`. -/
theorem close_gated_by_has_movie_witness :
    inpCloseClick.closeClicked = true ∧
    RuffleEvent.CloseFile ∈
      ((gui0.main_menu_bar ui0 inpCloseClick browserNone
          true).1.event_loop.sent.drop gui0.event_loop.sent.length) :=
  ⟨rfl, (close_gated_by_has_movie gui0 ui0 inpCloseClick browserNone).2 rfl⟩

/-- C9: the locale is fixed at construction — after any sequence of
subsequent operations (ticks, menu handlers, panel operations), the
controller's locale still equals the value computed by `new`. -/
theorem locale_immutable (bo : String → Bool) (el : EventLoopProxy)
    (hint : Option String) (parse : String → Option LanguageIdentifier)
    (ops : List GuiOp) :
    (ops.foldl (applyOp bo) (RuffleGui.new el hint parse)).locale
      = (RuffleGui.new el hint parse).locale := by
  have key : ∀ (ops : List GuiOp) (g : RuffleGui),
      (ops.foldl (applyOp bo) g).locale = g.locale := by
    intro ops
    induction ops with
    | nil => intro g; rfl
    | cons op rest ih =>
        intro g
        rw [List.foldl_cons, ih, applyOp_locale]
  exact key ops _

/-- C10: in this build the URL-prompt visibility is an invariant false —
it starts false at construction and every reachable state (the controller
is only driven through `update`; `show_open_url_prompt`'s sole call site
and the prompt body are both commented out) keeps it false with an empty
input buffer. -/
theorem url_prompt_invariantly_hidden (g : RuffleGui) (hg : Reachable g) :
    g.is_open_url_prompt_visible = false ∧ g.open_url_text = "" := by
  induction hg with
  | init el hint parse => exact ⟨rfl, rfl⟩
  | step g inp bo sm hm _ ih =>
      exact ⟨by rw [update_prompt, ih.1], by rw [update_text, ih.2]⟩

/-- Witness for C10 at a freshly constructed controller. -/
theorem url_prompt_invariantly_hidden_witness :
    gui0.is_open_url_prompt_visible = false ∧ gui0.open_url_text = "" :=
  url_prompt_invariantly_hidden gui0 (Reachable.init elInit none parseNone)

end Rattles
